import Mathlib

/-! The glirc Lua binding (lua-extension/glirc-lib.c)

A shallow embedding of the C functions that `glirc-lib.c` registers in the
`glirc` Lua library, together with the part of the Lua C API and of the host
API (`glirc-api.h`) they call.

* The Lua stack, the registry and the log of boundary calls are explicit state.
* `luaL_error` and the failing `luaL_check*` functions do not return in C
  (they `longjmp`); here they end the computation with `Result.raise`.
* The host application is a record of response functions (`Host`); every call
  made to it is appended to the log, so that "the host was called once" and
  "the host was not called" are statements about the log.
-/

namespace Glirc

/-! ## Values and foreign data -/

/-- A byte string with an explicit length: the chars a Lua string holds. -/
abbrev Bytes := List Nat

/-- The memory a non-null `char *` points to, cell by cell. The C string it
denotes ends just before the first zero cell. -/
abbrev CString := List Nat

/-- The bytes of the zero-terminated string stored at a `char *`. -/
def cstr (m : CString) : Bytes := m.takeWhile (fun b => b != 0)

/-- Lua values, as far as the binding can tell them apart. Floats, userdata and
threads are left out; a table is one built by `import_string_array`, a sequence
of strings at keys 1, 2, ... -/
inductive LuaValue where
  | nil
  | boolean (b : Bool)
  | integer (n : Int)
  | string (s : Bytes)
  | closure (id : Nat)
  | table (items : List Bytes)
deriving DecidableEq, Repr

/-- The type tags of `lua.h` that the binding meets. -/
inductive LuaType where
  | LUA_TNONE | LUA_TNIL | LUA_TBOOLEAN | LUA_TNUMBER | LUA_TSTRING
  | LUA_TTABLE | LUA_TFUNCTION
deriving DecidableEq, Repr

/-- Errors raised into the calling script. -/
inductive LuaError where
  /-- Raised by `luaL_error(L, msg)` -/
  | error (msg : String)
  /-- Raised by a `luaL_check*` function on argument `arg` -/
  | argerror (arg : Int)
deriving DecidableEq, Repr

/-- The C struct `glirc_string` of glirc-api.h: pointer and length. -/
structure glirc_string where
  str : Bytes
  len : Nat
deriving DecidableEq, Repr

/-- The C struct `glirc_message` of glirc-api.h, with the fields that
`glirc_lua_send_message` writes; the remaining ones stay zero. -/
structure glirc_message where
  network : glirc_string
  command : glirc_string
  params : List glirc_string
  params_n : Int
deriving DecidableEq, Repr

/-- The enum `message_code` of glirc-api.h. -/
inductive message_code where
  | NORMAL_MESSAGE
  | ERROR_MESSAGE
deriving DecidableEq, Repr

/-! ## The registry table -/

/-- The Lua registry at its non-negative integer keys: `free` is the entry at
key 0 (the head of the free list kept by `luaL_ref`), `arr` the entries at
keys 1, 2, ... An entry past the end of `arr` is nil. -/
structure Registry where
  free : LuaValue
  arr : List LuaValue
deriving DecidableEq, Repr

/-- Calls that cross the boundary of the binding, in the order they happen:
the functions of glirc-api.h, the copies Lua takes of host memory, and the
entry into a script closure. -/
inductive Event where
  | glirc_send_message (msg : glirc_message)
  | glirc_inject_chat (net src tgt msg : glirc_string)
  | glirc_print (code : message_code) (msg : Option Bytes) (len : Nat)
  | glirc_list_networks
  | glirc_list_channels (net : glirc_string)
  | glirc_list_channel_users (net chan : glirc_string)
  | glirc_user_account (net nick : glirc_string)
  | glirc_user_channel_modes (net chan nick : glirc_string)
  | glirc_my_nick (net : glirc_string)
  | glirc_current_focus
  | glirc_is_logged_on (net tgt : glirc_string)
  | glirc_is_channel (net tgt : glirc_string)
  | glirc_resolve_path (path : glirc_string)
  | glirc_set_timer (millis : Int) (dat : Int)
  | glirc_identifier_cmp (s1 s2 : glirc_string)
  | glirc_free_string (p : Option CString)
  | glirc_free_strings (p : List CString)
  /-- Lua copied the zero-terminated string at `p` -/
  | lua_copy (p : CString)
  /-- Lua copied `len` bytes from `p` -/
  | lua_copy_len (p : Option Bytes) (len : Nat)
  /-- The value `f` is called with `nargs` arguments while the registry is
  `reg`; what the callee does while it runs is not part of the log -/
  | invoke (f : LuaValue) (nargs : Nat) (reg : Registry)
deriving DecidableEq, Repr

/-- The Lua state a C function works on. `stack[0]` is index 1. -/
structure LuaState where
  stack : List LuaValue
  registry : Registry
  trace : List Event
deriving DecidableEq, Repr

/-- Outcome of running a piece of C code on a Lua state. -/
inductive Result (α : Type) where
  | ok (a : α) (s : LuaState)
  | raise (e : LuaError) (s : LuaState)

/-- C code over a Lua state that may raise a Lua error. -/
def LuaM (α : Type) : Type := LuaState → Result α

namespace LuaM

/-- Return without touching the state. -/
def ret {α : Type} (a : α) : LuaM α := fun s => Result.ok a s

/-- Sequencing: a raised error skips the rest. -/
def seq {α β : Type} (m : LuaM α) (f : α → LuaM β) : LuaM β := fun s =>
  match m s with
  | Result.ok a s1 => f a s1
  | Result.raise e s1 => Result.raise e s1

end LuaM

instance : Monad LuaM where
  pure := LuaM.ret
  bind := LuaM.seq

/-- The state a result ends in. -/
def Result.state {α : Type} : Result α → LuaState
  | Result.ok _ s => s
  | Result.raise _ s => s

/-- The boundary calls made, oldest first. -/
def Result.log {α : Type} (r : Result α) : List Event := r.state.trace

/-- What the script sees: the top `n` stack values a C function returning `n`
hands back, or the error it raised. -/
def Result.outcome : Result Int → Except LuaError (List LuaValue)
  | Result.ok n s => Except.ok (s.stack.drop (s.stack.length - n.toNat))
  | Result.raise e _ => Except.error e

/-- Run a C function as Lua does: the arguments are the whole stack. -/
def call (f : LuaM Int) (args : List LuaValue) (reg : Registry) : Result Int :=
  f { stack := args, registry := reg, trace := [] }

/-! ## The host -/

/-- What the host answers. Calls that return nothing are only logged. -/
structure Host where
  glirc_send_message : glirc_message → Int
  glirc_inject_chat : glirc_string → glirc_string → glirc_string → glirc_string → Int
  glirc_list_networks : Option (List CString)
  glirc_list_channels : glirc_string → Option (List CString)
  glirc_list_channel_users : glirc_string → glirc_string → Option (List CString)
  glirc_user_account : glirc_string → glirc_string → Option CString
  glirc_user_channel_modes : glirc_string → glirc_string → glirc_string → Option CString
  glirc_my_nick : glirc_string → Option CString
  glirc_resolve_path : glirc_string → Option CString
  /-- For each out-parameter pair: `none` when the host leaves it at
  `(NULL, 0)`, the string when the host stores a pointer and its length -/
  glirc_current_focus : Option Bytes × Option Bytes
  glirc_is_logged_on : glirc_string → glirc_string → Int
  glirc_is_channel : glirc_string → glirc_string → Int

/-- The parts of the Lua runtime the embedding does not compute. -/
structure LuaRuntime where
  /-- The string to integer coercion of `lua_tointegerx` -/
  str2int : Bytes → Option Int
  /-- Running `lua_pcall` on a value with no arguments and no results wanted,
  in a given registry: the error object when the call fails, and the registry
  the call leaves -/
  pcall : LuaValue → Registry → Option LuaValue × Registry

/-! ## Lua C API -/

/-- Append a boundary call to the log. -/
def emit (e : Event) : LuaM Unit := fun s =>
  Result.ok () { s with trace := s.trace ++ [e] }

/-- The value at an acceptable index: positive counts from the bottom,
negative from the top; `none` when the index is not valid. -/
def index2value (s : LuaState) (idx : Int) : Option LuaValue :=
  if 0 < idx then s.stack.get? (idx - 1).toNat
  else if idx < 0 ∧ -idx ≤ s.stack.length then s.stack.get? (s.stack.length + idx).toNat
  else none

/-- Position in `stack` of a valid index. -/
def index2pos (s : LuaState) (idx : Int) : Nat :=
  if 0 < idx then (idx - 1).toNat else (s.stack.length + idx).toNat

/-- Same as `lua_gettop`. -/
def lua_gettop : LuaM Int := fun s => Result.ok s.stack.length s

/-- Same as `lua_type`. -/
def lua_type (idx : Int) : LuaM LuaType := fun s =>
  Result.ok (match index2value s idx with
    | none => LuaType.LUA_TNONE
    | some LuaValue.nil => LuaType.LUA_TNIL
    | some (LuaValue.boolean _) => LuaType.LUA_TBOOLEAN
    | some (LuaValue.integer _) => LuaType.LUA_TNUMBER
    | some (LuaValue.string _) => LuaType.LUA_TSTRING
    | some (LuaValue.closure _) => LuaType.LUA_TFUNCTION
    | some (LuaValue.table _) => LuaType.LUA_TTABLE) s

/-- Same as `luaL_error`: never returns. -/
def luaL_error {α : Type} (msg : String) : LuaM α := fun s =>
  Result.raise (LuaError.error msg) s

/-- Same as `luaL_argerror`: never returns. -/
def luaL_argerror {α : Type} (arg : Int) : LuaM α := fun s =>
  Result.raise (LuaError.argerror arg) s

/-- Same as `luaL_checktype`: raises unless the argument has type `t`. -/
def luaL_checktype (arg : Int) (t : LuaType) : LuaM Unit := do
  let ty ← lua_type arg
  if ty ≠ t then luaL_argerror arg
  pure ()

/-- The decimal digits Lua prints an integer with. -/
def lua_integer2str (n : Int) : Bytes := (toString n).toList.map Char.toNat

/-- Same as `lua_tolstring`: a string is returned as it is, with its length; a
number is converted, also in the stack slot; any other value gives `NULL` and
length 0. -/
def lua_tolstring (idx : Int) : LuaM (Option Bytes × Nat) := fun s =>
  match index2value s idx with
  | some (LuaValue.string b) => Result.ok (some b, b.length) s
  | some (LuaValue.integer n) =>
      let b := lua_integer2str n
      Result.ok (some b, b.length)
        { s with stack := s.stack.set (index2pos s idx) (LuaValue.string b) }
  | _ => Result.ok (none, 0) s

/-- Same as `luaL_checklstring`: the string at argument `arg` with its length,
or an argument error. -/
def luaL_checklstring (arg : Int) : LuaM glirc_string := do
  let r ← lua_tolstring arg
  match r with
  | (some b, len) => pure { str := b, len := len }
  | (none, _) => luaL_argerror arg

/-- Push a value on the stack. -/
def push (v : LuaValue) : LuaM Unit := fun s =>
  Result.ok () { s with stack := s.stack ++ [v] }

/-- Same as `lua_pushstring`: pushes a copy of the zero-terminated string at
`p`, or nil when `p` is `NULL`. -/
def lua_pushstring (p : Option CString) : LuaM Unit :=
  match p with
  | none => push LuaValue.nil
  | some m => do
      emit (Event.lua_copy m)
      push (LuaValue.string (cstr m))

/-- Same as `lua_pushlstring`: pushes a copy of the `len` bytes at `p`. With
`len = 0` nothing is read and the empty string is pushed, whatever `p` is. -/
def lua_pushlstring (p : Option Bytes) (len : Nat) : LuaM Unit := do
  emit (Event.lua_copy_len p len)
  push (LuaValue.string ((p.getD []).take len))

/-- Same as `lua_pushboolean`: any nonzero int is true. -/
def lua_pushboolean (b : Int) : LuaM Unit := push (LuaValue.boolean (b != 0))

/-- Same as `lua_pushinteger`. -/
def lua_pushinteger (n : Int) : LuaM Unit := push (LuaValue.integer n)

/-! ## glirc-lib.c: requests -/

/-- The loop `for (i = 0; i < n; i++) params[i].str = luaL_checklstring(L, i+3, &params[i].len)`
of `glirc_lua_send_message`, with `k = n - i` rounds to go. `params` holds the
slots written so far, `params[0]` to `params[i-1]`. -/
def send_message_params : (k : Nat) → (i : Int) → List glirc_string → LuaM (List glirc_string)
  | 0, _, params => pure params
  | k + 1, i, params => do
      let p ← luaL_checklstring (i + 3)
      send_message_params k (i + 1) (params ++ [p])

/-- Embeds `glirc_lua_send_message`. -/
def glirc_lua_send_message (H : Host) : LuaM Int := do
  let network ← luaL_checklstring 1
  let command ← luaL_checklstring 2
  let n := (← lua_gettop) - 2
  if n > 15 then luaL_error "too many parameters"
  let params ← send_message_params n.toNat 0 []
  let msg : glirc_message :=
    { network := network, command := command, params := params, params_n := n }
  emit (Event.glirc_send_message msg)
  if H.glirc_send_message msg ≠ 0 then luaL_error "client failure"
  return 0

/-- Embeds `glirc_lua_inject_chat`. -/
def glirc_lua_inject_chat (H : Host) : LuaM Int := do
  let net ← luaL_checklstring 1
  let src ← luaL_checklstring 2
  let tgt ← luaL_checklstring 3
  let msg ← luaL_checklstring 4
  emit (Event.glirc_inject_chat net src tgt msg)
  if H.glirc_inject_chat net src tgt msg ≠ 0 then luaL_error "client failure"
  return 0

/-- Embeds `glirc_lua_print`. -/
def glirc_lua_print : LuaM Int := do
  let msg ← luaL_checklstring 1
  luaL_checktype 2 LuaType.LUA_TNONE
  emit (Event.glirc_print message_code.NORMAL_MESSAGE (some msg.str) msg.len)
  return 0

/-- Embeds `glirc_lua_error`. -/
def glirc_lua_error : LuaM Int := do
  let msg ← luaL_checklstring 1
  luaL_checktype 2 LuaType.LUA_TNONE
  emit (Event.glirc_print message_code.ERROR_MESSAGE (some msg.str) msg.len)
  return 0

/-! ## glirc-lib.c: lists -/

/-- Take Lua copies of the strings of a host array, first to last. -/
def copy_strings : List CString → LuaM Unit
  | [] => pure ()
  | m :: rest => do
      emit (Event.lua_copy m)
      copy_strings rest

/-- Modelled from the spec: `import_string_array` is declared in
glirc-marshal.h and its body is not among the sources. Section 4.1: "given a
host-owned null-terminated array of owned strings, produce a script-native
ordered sequence of strings preserving order, then release every element and
the array itself." `glirc_free_strings` stands for that release. -/
def import_string_array (list : List CString) : LuaM Unit := do
  copy_strings list
  push (LuaValue.table (list.map cstr))
  emit (Event.glirc_free_strings list)

/-- Embeds `glirc_lua_list_networks`. -/
def glirc_lua_list_networks (H : Host) : LuaM Int := do
  luaL_checktype 1 LuaType.LUA_TNONE
  emit Event.glirc_list_networks
  match H.glirc_list_networks with
  | none => luaL_error "client failure"
  | some networks =>
      import_string_array networks
      return 1

/-- Embeds `glirc_lua_list_channels`. -/
def glirc_lua_list_channels (H : Host) : LuaM Int := do
  let network ← luaL_checklstring 1
  luaL_checktype 2 LuaType.LUA_TNONE
  emit (Event.glirc_list_channels network)
  match H.glirc_list_channels network with
  | none => luaL_error "no such network"
  | some channels =>
      import_string_array channels
      return 1

/-- Embeds `glirc_lua_list_channel_users`. -/
def glirc_lua_list_channel_users (H : Host) : LuaM Int := do
  let network ← luaL_checklstring 1
  let channel ← luaL_checklstring 2
  luaL_checktype 3 LuaType.LUA_TNONE
  emit (Event.glirc_list_channel_users network channel)
  match H.glirc_list_channel_users network channel with
  | none => luaL_error "no such channel"
  | some users =>
      import_string_array users
      return 1

/-! ## glirc-lib.c: lookups -/

/-- Same as `glirc_free_string`: the host releases `p`. -/
def glirc_free_string (p : Option CString) : LuaM Unit :=
  emit (Event.glirc_free_string p)

/-- Embeds `glirc_lua_user_account`. -/
def glirc_lua_user_account (H : Host) : LuaM Int := do
  let net ← luaL_checklstring 1
  let nick ← luaL_checklstring 2
  luaL_checktype 3 LuaType.LUA_TNONE
  emit (Event.glirc_user_account net nick)
  let acct := H.glirc_user_account net nick
  lua_pushstring acct
  glirc_free_string acct
  return 1

/-- Embeds `glirc_lua_user_channel_modes`. -/
def glirc_lua_user_channel_modes (H : Host) : LuaM Int := do
  let net ← luaL_checklstring 1
  let chan ← luaL_checklstring 2
  let nick ← luaL_checklstring 3
  luaL_checktype 4 LuaType.LUA_TNONE
  emit (Event.glirc_user_channel_modes net chan nick)
  let sigils := H.glirc_user_channel_modes net chan nick
  lua_pushstring sigils
  glirc_free_string sigils
  return 1

/-- Embeds `glirc_lua_my_nick`. -/
def glirc_lua_my_nick (H : Host) : LuaM Int := do
  let net ← luaL_checklstring 1
  luaL_checktype 2 LuaType.LUA_TNONE
  emit (Event.glirc_my_nick net)
  let nick := H.glirc_my_nick net
  lua_pushstring nick
  glirc_free_string nick
  return 1

/-- Embeds `glirc_lua_current_focus`. The locals start as `NULL` and 0 and the
host overwrites the pairs it sets; `glirc_free_string` is handed the pointer. -/
def glirc_lua_current_focus (H : Host) : LuaM Int := do
  luaL_checktype 1 LuaType.LUA_TNONE
  emit Event.glirc_current_focus
  let network := H.glirc_current_focus.1
  let network_len := (network.getD []).length
  let target := H.glirc_current_focus.2
  let target_len := (target.getD []).length
  lua_pushlstring network network_len
  lua_pushlstring target target_len
  glirc_free_string network
  glirc_free_string target
  return 2

/-- Embeds `glirc_lua_is_logged_on`. -/
def glirc_lua_is_logged_on (H : Host) : LuaM Int := do
  let network ← luaL_checklstring 1
  let target ← luaL_checklstring 2
  luaL_checktype 3 LuaType.LUA_TNONE
  emit (Event.glirc_is_logged_on network target)
  let res := H.glirc_is_logged_on network target
  lua_pushboolean res
  return 1

/-- Embeds `glirc_lua_is_channel`. -/
def glirc_lua_is_channel (H : Host) : LuaM Int := do
  let network ← luaL_checklstring 1
  let target ← luaL_checklstring 2
  luaL_checktype 3 LuaType.LUA_TNONE
  emit (Event.glirc_is_channel network target)
  let res := H.glirc_is_channel network target
  lua_pushboolean res
  return 1

/-- Embeds `glirc_lua_resolve_path`. -/
def glirc_lua_resolve_path (H : Host) : LuaM Int := do
  let path ← luaL_checklstring 1
  luaL_checktype 2 LuaType.LUA_TNONE
  emit (Event.glirc_resolve_path path)
  let res := H.glirc_resolve_path path
  lua_pushstring res
  glirc_free_string res
  return 1

/-! ## The reference system of lauxlib.c (Lua 5.3) -/

/-- Write `v` at position `i` of an array, filling a gap with nil. -/
def setPad : List LuaValue → Nat → LuaValue → List LuaValue
  | [], 0, v => [v]
  | [], i + 1, v => LuaValue.nil :: setPad [] i v
  | _ :: xs, 0, v => v :: xs
  | x :: xs, i + 1, v => x :: setPad xs i v

/-- The entry at key `k`. -/
def Registry.get (t : Registry) : Nat → LuaValue
  | 0 => t.free
  | k + 1 => t.arr.getD k LuaValue.nil

/-- The table with the entry at key `k` replaced by `v`. -/
def Registry.set (t : Registry) (k : Nat) (v : LuaValue) : Registry :=
  match k with
  | 0 => { t with free := v }
  | k + 1 => { t with arr := setPad t.arr k v }

/-- Same as `lua_rawgeti` on the registry. It holds no negative integer key. -/
def rawgeti (t : Registry) (n : Int) : LuaValue :=
  if n < 0 then LuaValue.nil else t.get n.toNat

/-- Same as `lua_rawseti` on the registry. A negative key is outside of what
`Registry` tracks. -/
def rawseti (t : Registry) (n : Int) (v : LuaValue) : Registry :=
  if n < 0 then t else t.set n.toNat v

/-- The effect of `luaL_unref` on the table: `t[ref] = t[0]; t[0] = ref`, and
nothing for a negative `ref`. -/
def luaL_unref_table (t : Registry) (ref : Int) : Registry :=
  if ref ≥ 0 then
    rawseti (rawseti t ref (rawgeti t 0)) 0 (LuaValue.integer ref)
  else t

/-- Same as `luaL_unref(L, LUA_REGISTRYINDEX, ref)`. -/
def luaL_unref (ref : Int) : LuaM Unit := fun s =>
  Result.ok () { s with registry := luaL_unref_table s.registry ref }

/-- Same as `lua_rawgeti(L, LUA_REGISTRYINDEX, n)`: pushes the entry. -/
def lua_rawgeti_registry (n : Int) : LuaM Unit := fun s =>
  Result.ok () { s with stack := s.stack ++ [rawgeti s.registry n] }

/-- Same as `lua_pcall(L, 0, 0, 0)`: pops the function and calls it in
protected mode; returns 0, or a nonzero status with the error object pushed. -/
def lua_pcall (rt : LuaRuntime) : LuaM Int := fun s =>
  let f := s.stack.getLastD LuaValue.nil
  let r := rt.pcall f s.registry
  let tr := s.trace ++ [Event.invoke f 0 s.registry]
  match r.1 with
  | none => Result.ok 0 { stack := s.stack.dropLast, registry := r.2, trace := tr }
  | some e => Result.ok 2 { stack := s.stack.dropLast ++ [e], registry := r.2, trace := tr }

/-- Same as `lua_remove` at a valid index. -/
def lua_remove (idx : Int) : LuaM Unit := fun s =>
  Result.ok () { s with stack := s.stack.eraseIdx (index2pos s idx) }

/-- Embeds `on_timer`; `dat` is the token the host hands back. -/
def on_timer (rt : LuaRuntime) (dat : Int) : LuaM Unit := do
  let ref := dat
  lua_rawgeti_registry ref
  luaL_unref ref
  if (← lua_pcall rt) ≠ 0 then
    let (msg, len) ← lua_tolstring (-1)
    emit (Event.glirc_print message_code.ERROR_MESSAGE msg len)
    lua_remove (-1)

/-- Modelled from the spec: the IRC case map that `glirc_identifier_cmp`
applies lives in the host and is not among the sources. Section 4.6: "folding
both letter case and a fixed set of punctuation equivalences, e.g. `{|}~`
folding to `[\]^`". The letters `a`-`z` (97-122) go to `A`-`Z` and `{|}~`
(123-126) to `[\]^` (91-94); both are a shift by 32. -/
def ircFoldByte (c : Nat) : Nat := if 97 ≤ c ∧ c ≤ 126 then c - 32 else c

/-- Modelled from the spec: the folded form of an identifier. -/
def ircFoldCase (s : Bytes) : Bytes := s.map ircFoldByte

/-- Three-way lexicographic comparison of byte strings: -1, 0 or 1. -/
def compareBytes : Bytes → Bytes → Int
  | [], [] => 0
  | [], _ :: _ => -1
  | _ :: _, [] => 1
  | a :: as, b :: bs => if a < b then -1 else if b < a then 1 else compareBytes as bs

/-- Modelled from the spec: `glirc_identifier_cmp` is declared in glirc-api.h
and implemented in the host. Section 4.6: "apply the domain case-map to both
..., then perform a three-way lexicographic comparison, returning -1/0/1." -/
def glirc_identifier_cmp (s1 s2 : glirc_string) : Int :=
  compareBytes (ircFoldCase (s1.str.take s1.len)) (ircFoldCase (s2.str.take s2.len))

/-- Embeds `glirc_lua_identifier_cmp`. -/
def glirc_lua_identifier_cmp : LuaM Int := do
  let str1 ← luaL_checklstring 1
  let str2 ← luaL_checklstring 2
  luaL_checktype 3 LuaType.LUA_TNONE
  emit (Event.glirc_identifier_cmp str1 str2)
  let res := glirc_identifier_cmp str1 str2
  lua_pushinteger res
  return 1

/-! ## Notions used to state the properties -/

/-- The `glirc_string` that `luaL_checklstring` yields for a Lua string: its
bytes and their number. -/
def ofBytes (b : Bytes) : glirc_string := { str := b, len := b.length }

/-- The message `glirc_lua_send_message` builds from string arguments. -/
def request (network command : Bytes) (ps : List Bytes) : glirc_message :=
  { network := ofBytes network, command := ofBytes command,
    params := ps.map ofBytes, params_n := ps.length }

/-- Follow the free list from the value `v` for at most `fuel` links. -/
def followFree (t : Registry) : Nat → LuaValue → List Nat
  | 0, _ => []
  | fuel + 1, v =>
      match v with
      | LuaValue.integer n =>
          if 0 < n then n.toNat :: followFree t fuel (t.get n.toNat) else []
      | _ => []

/-- The keys on the free list of the registry, head first. -/
def freeList (t : Registry) : List Nat := followFree t t.arr.length t.free

/-- Starting from the value `v`, the links of the table run through the keys
`l` and end at nil. -/
def IsFreeList (t : Registry) : LuaValue → List Nat → Prop
  | v, [] => v = LuaValue.nil
  | v, k :: l => v = LuaValue.integer k ∧ IsFreeList t (t.get k) l

instance IsFreeList.decide (t : Registry) : ∀ (v : LuaValue) (l : List Nat),
    Decidable (IsFreeList t v l)
  | v, [] => inferInstanceAs (Decidable (v = LuaValue.nil))
  | v, k :: l =>
      have := IsFreeList.decide t (t.get k) l
      inferInstanceAs (Decidable (v = LuaValue.integer k ∧ IsFreeList t (t.get k) l))

/-- A registry state that `luaL_ref` and `luaL_unref` keep. -/
def WellFormed (t : Registry) : Prop :=
  IsFreeList t t.free (freeList t) ∧ (freeList t).Nodup ∧
  (∀ k ∈ freeList t, 1 ≤ k ∧ k ≤ t.arr.length) ∧
  (∀ i, i < t.arr.length → i + 1 ∉ freeList t → t.get (i + 1) ≠ LuaValue.nil)

/-- The key `k` is a reference in use: a key of the array that is not on the free list. -/
def Live (t : Registry) (k : Nat) : Prop :=
  1 ≤ k ∧ k ≤ t.arr.length ∧ k ∉ freeList t

/-- `WellFormed` is a finite check. -/
instance WellFormed.decide (t : Registry) : Decidable (WellFormed t) := by
  unfold WellFormed
  infer_instance

/-- `Live` is a finite check. -/
instance Live.decide (t : Registry) (k : Nat) : Decidable (Live t k) := by
  unfold Live
  infer_instance

/-! ## Sample host, runtime and registry -/

/-- The bytes of a string literal. -/
def bytes (s : String) : Bytes := s.toList.map Char.toNat

/-- A host with fixed answers. -/
def sampleHost : Host where
  glirc_send_message := fun _ => 0
  glirc_inject_chat := fun _ _ _ _ => 1
  glirc_list_networks := some [[109, 121, 110, 101, 116, 0]]
  glirc_list_channels := fun _ => none
  glirc_list_channel_users := fun _ _ => some []
  glirc_user_account := fun _ _ => none
  glirc_user_channel_modes := fun _ _ _ => some [64, 0]
  glirc_my_nick := fun _ => some [109, 101, 0, 7]
  glirc_resolve_path := fun _ => none
  glirc_current_focus := (none, none)
  glirc_is_logged_on := fun _ _ => 1
  glirc_is_channel := fun _ _ => 0

/-- A runtime in which closure 7 fails with the error text `err` and every
other call succeeds; no call touches the registry. -/
def sampleRuntime : LuaRuntime where
  str2int := fun _ => none
  pcall := fun f t => (if f = LuaValue.closure 7 then some (LuaValue.string [101, 114, 114])
    else none, t)

/-- A registry with references 1 and 2 in use and key 3 on the free list. -/
def sampleRegistry : Registry :=
  { free := LuaValue.integer 3,
    arr := [LuaValue.table [], LuaValue.closure 1, LuaValue.nil] }

/-- A runtime in which every call fails with a table as error object, as
`error` applied to an empty table does; no call touches the registry. -/
def tableErrorRuntime : LuaRuntime where
  str2int := fun _ => none
  pcall := fun _ t => (some (LuaValue.table []), t)

/-! ## Running the monad -/

theorem bind_apply {α β : Type} (m : LuaM α) (f : α → LuaM β) (s : LuaState) :
    (m >>= f) s = match m s with
      | Result.ok a s1 => f a s1
      | Result.raise e s1 => Result.raise e s1 := rfl

theorem pure_apply {α : Type} (a : α) (s : LuaState) :
    (pure a : LuaM α) s = Result.ok a s := rfl

theorem index2value_arg (s : LuaState) (k : Nat) :
    index2value s ((k : Int) + 1) = s.stack.get? k := by
  unfold index2value
  have h : (0 : Int) < (k : Int) + 1 := by omega
  simp [h]

theorem luaL_checklstring_string (s : LuaState) (idx : Int) (b : Bytes)
    (h : index2value s idx = some (LuaValue.string b)) :
    luaL_checklstring idx s = Result.ok { str := b, len := b.length } s := by
  simp [luaL_checklstring, bind_apply, lua_tolstring, h, pure_apply]

theorem send_message_params_strings (rest : List Bytes) :
    ∀ (pre : List LuaValue) (i : Int) (acc : List glirc_string) (reg : Registry)
      (tr : List Event), i + 2 = pre.length →
      send_message_params rest.length i acc
          { stack := pre ++ rest.map LuaValue.string, registry := reg, trace := tr }
        = Result.ok (acc ++ rest.map ofBytes)
          { stack := pre ++ rest.map LuaValue.string, registry := reg, trace := tr } := by
  induction rest with
  | nil => intro pre i acc reg tr _; simp [send_message_params, pure_apply]
  | cons b rest ih =>
    intro pre i acc reg tr hi
    have hidx : index2value
        { stack := pre ++ (b :: rest).map LuaValue.string, registry := reg, trace := tr }
        (i + 3) = some (LuaValue.string b) := by
      have : i + 3 = ((pre.length : Nat) : Int) + 1 := by omega
      rw [this, index2value_arg]
      show (pre ++ (b :: rest).map LuaValue.string).get? pre.length = _
      rw [List.get?_eq_getElem?, List.getElem?_append_right (le_refl _)]
      simp
    simp only [List.length_cons, send_message_params, bind_apply]
    rw [luaL_checklstring_string _ _ _ hidx]
    have h2 := ih (pre ++ [LuaValue.string b]) (i + 1) (acc ++ [ofBytes b]) reg tr
      (by simp; omega)
    simpa [ofBytes] using h2



theorem send_message_run (H : Host) (network command : Bytes) (ps : List Bytes)
    (hn : ps.length ≤ 15) (reg : Registry) :
    call (glirc_lua_send_message H)
        (LuaValue.string network :: LuaValue.string command :: ps.map LuaValue.string) reg
      = (if H.glirc_send_message (request network command ps) ≠ 0
          then Result.raise (LuaError.error "client failure")
          else Result.ok 0)
        { stack := LuaValue.string network :: LuaValue.string command :: ps.map LuaValue.string,
          registry := reg,
          trace := [Event.glirc_send_message (request network command ps)] } := by
  have hloop := send_message_params_strings ps
    [LuaValue.string network, LuaValue.string command] 0 [] reg [] (by simp)
  simp only [List.cons_append, List.nil_append] at hloop
  have hgt : ¬ ((ps.length : Int) > 15) := by omega
  unfold call glirc_lua_send_message
  simp only [bind_apply]
  rw [luaL_checklstring_string _ 1 network (by rfl)]
  simp only []
  rw [luaL_checklstring_string _ 2 command (by rfl)]
  have hn2 : ((ps.length : Int) + 1 + 1 - 2) = ps.length := by omega
  have hgt2 : ¬ (15 < (ps.length : Int)) := by omega
  simp only [lua_gettop, bind_apply, List.length_cons, List.length_map, Nat.cast_add,
    Nat.cast_one, hn2, gt_iff_lt, hgt2, if_false, pure_apply, Int.toNat_ofNat, hloop, emit,
    List.nil_append]
  by_cases hz : H.glirc_send_message (request network command ps) = 0
  · simp [request, ofBytes] at hz
    simp [hz, request, ofBytes, pure_apply, bind_apply]
  · simp [request, ofBytes] at hz
    simp [hz, request, ofBytes, pure_apply, bind_apply, luaL_error]



theorem send_message_too_many (H : Host) (network command : Bytes) (extra : List LuaValue)
    (hn : 16 ≤ extra.length) (reg : Registry) :
    call (glirc_lua_send_message H)
        (LuaValue.string network :: LuaValue.string command :: extra) reg
      = Result.raise (LuaError.error "too many parameters")
        { stack := LuaValue.string network :: LuaValue.string command :: extra,
          registry := reg, trace := [] } := by
  have hgt : (15 : Int) < (extra.length : Int) + 1 + 1 - 2 := by omega
  unfold call glirc_lua_send_message
  simp only [bind_apply]
  rw [luaL_checklstring_string _ 1 network (by rfl)]
  simp only []
  rw [luaL_checklstring_string _ 2 command (by rfl)]
  simp only [lua_gettop, bind_apply, List.length_cons, Nat.cast_add, Nat.cast_one, gt_iff_lt,
    hgt, if_true, luaL_error]

theorem inject_chat_run (H : Host) (net src tgt msg : Bytes) (extra : List LuaValue)
    (reg : Registry) :
    call (glirc_lua_inject_chat H)
        (LuaValue.string net :: LuaValue.string src :: LuaValue.string tgt ::
          LuaValue.string msg :: extra) reg
      = (if H.glirc_inject_chat (ofBytes net) (ofBytes src) (ofBytes tgt) (ofBytes msg) ≠ 0
          then Result.raise (LuaError.error "client failure")
          else Result.ok 0)
        { stack := LuaValue.string net :: LuaValue.string src :: LuaValue.string tgt ::
            LuaValue.string msg :: extra,
          registry := reg,
          trace := [Event.glirc_inject_chat (ofBytes net) (ofBytes src) (ofBytes tgt)
            (ofBytes msg)] } := by
  unfold call glirc_lua_inject_chat
  simp only [bind_apply]
  rw [luaL_checklstring_string _ 1 net (by rfl)]
  simp only []
  rw [luaL_checklstring_string _ 2 src (by rfl)]
  simp only []
  rw [luaL_checklstring_string _ 3 tgt (by rfl)]
  simp only []
  rw [luaL_checklstring_string _ 4 msg (by rfl)]
  by_cases hz : H.glirc_inject_chat (ofBytes net) (ofBytes src) (ofBytes tgt) (ofBytes msg) = 0
  · simp [ofBytes] at hz
    simp [hz, ofBytes, pure_apply, bind_apply, emit]
  · simp [ofBytes] at hz
    simp [hz, ofBytes, pure_apply, bind_apply, emit, luaL_error]

/-! ## The registry under `luaL_ref` and `luaL_unref` -/

theorem index2value_top (stk : List LuaValue) (e : LuaValue) (t : Registry) (tr : List Event) :
    index2value { stack := stk ++ [e], registry := t, trace := tr } (-1) = some e := by
  simp [index2value]

theorem index2pos_top (stk : List LuaValue) (e : LuaValue) (t : Registry) (tr : List Event) :
    index2pos { stack := stk ++ [e], registry := t, trace := tr } (-1) = stk.length := by
  simp [index2pos]

theorem eraseIdx_length_append (xs : List LuaValue) (e : LuaValue) :
    (xs ++ [e]).eraseIdx xs.length = xs := by
  induction xs with
  | nil => rfl
  | cons x xs ih => simp [List.eraseIdx, ih]

theorem on_timer_ok (rt : LuaRuntime) (dat : Int) (s : LuaState)
    (h : (rt.pcall (rawgeti s.registry dat) (luaL_unref_table s.registry dat)).1 = none) :
    on_timer rt dat s = Result.ok ()
      { stack := s.stack,
        registry := (rt.pcall (rawgeti s.registry dat) (luaL_unref_table s.registry dat)).2,
        trace := s.trace ++
          [Event.invoke (rawgeti s.registry dat) 0 (luaL_unref_table s.registry dat)] } := by
  simp [on_timer, bind_apply, lua_rawgeti_registry, luaL_unref, lua_pcall, h, pure_apply]

theorem on_timer_failed (rt : LuaRuntime) (dat : Int) (s : LuaState) (e : LuaValue)
    (h : (rt.pcall (rawgeti s.registry dat) (luaL_unref_table s.registry dat)).1 = some e) :
    ∃ msg len, on_timer rt dat s = Result.ok ()
      { stack := s.stack,
        registry := (rt.pcall (rawgeti s.registry dat) (luaL_unref_table s.registry dat)).2,
        trace := s.trace ++
          [Event.invoke (rawgeti s.registry dat) 0 (luaL_unref_table s.registry dat),
           Event.glirc_print message_code.ERROR_MESSAGE msg len] } ∧
      (∀ b, e = LuaValue.string b → msg = some b ∧ len = b.length) ∧
      (∀ n, e = LuaValue.integer n →
        msg = some (lua_integer2str n) ∧ len = (lua_integer2str n).length) ∧
      ((∀ b, e ≠ LuaValue.string b) → (∀ n, e ≠ LuaValue.integer n) →
        msg = none ∧ len = 0) := by
  cases e with
  | string b =>
    refine ⟨some b, b.length, ?_, fun b2 hb => (by cases hb; exact ⟨rfl, rfl⟩),
      fun n hn => (by cases hn), fun h1 _ => absurd rfl (h1 b)⟩
    simp [on_timer, bind_apply, lua_rawgeti_registry, luaL_unref, lua_pcall, h, pure_apply,
      lua_tolstring, index2value_top, emit, lua_remove, index2pos_top,
      eraseIdx_length_append]
  | integer n =>
    refine ⟨some (lua_integer2str n), (lua_integer2str n).length, ?_,
      fun b2 hb => (by cases hb), fun n2 hn => (by cases hn; exact ⟨rfl, rfl⟩),
      fun _ h2 => absurd rfl (h2 n)⟩
    simp [on_timer, bind_apply, lua_rawgeti_registry, luaL_unref, lua_pcall, h, pure_apply,
      lua_tolstring, index2value_top, emit, lua_remove, index2pos_top,
      eraseIdx_length_append]
  | nil =>
    refine ⟨none, 0, ?_, fun b2 hb => (by cases hb), fun n hn => (by cases hn),
      fun _ _ => ⟨rfl, rfl⟩⟩
    simp [on_timer, bind_apply, lua_rawgeti_registry, luaL_unref, lua_pcall, h, pure_apply,
      lua_tolstring, index2value_top, emit, lua_remove, index2pos_top,
      eraseIdx_length_append]
  | boolean x =>
    refine ⟨none, 0, ?_, fun b2 hb => (by cases hb), fun n hn => (by cases hn),
      fun _ _ => ⟨rfl, rfl⟩⟩
    simp [on_timer, bind_apply, lua_rawgeti_registry, luaL_unref, lua_pcall, h, pure_apply,
      lua_tolstring, index2value_top, emit, lua_remove, index2pos_top,
      eraseIdx_length_append]
  | closure x =>
    refine ⟨none, 0, ?_, fun b2 hb => (by cases hb), fun n hn => (by cases hn),
      fun _ _ => ⟨rfl, rfl⟩⟩
    simp [on_timer, bind_apply, lua_rawgeti_registry, luaL_unref, lua_pcall, h, pure_apply,
      lua_tolstring, index2value_top, emit, lua_remove, index2pos_top,
      eraseIdx_length_append]
  | table x =>
    refine ⟨none, 0, ?_, fun b2 hb => (by cases hb), fun n hn => (by cases hn),
      fun _ _ => ⟨rfl, rfl⟩⟩
    simp [on_timer, bind_apply, lua_rawgeti_registry, luaL_unref, lua_pcall, h, pure_apply,
      lua_tolstring, index2value_top, emit, lua_remove, index2pos_top,
      eraseIdx_length_append]

theorem rawgeti_nat (t : Registry) (k : Nat) : rawgeti t (k : Int) = t.get k := by
  have hpos : ¬ ((k : Int) < 0) := by omega
  simp [rawgeti, hpos]

theorem luaL_checktype_none (s : LuaState) (idx : Int) (h : index2value s idx = none) :
    luaL_checktype idx LuaType.LUA_TNONE s = Result.ok () s := by
  simp [luaL_checktype, bind_apply, lua_type, h, pure_apply]

theorem luaL_checktype_some (s : LuaState) (idx : Int) (v : LuaValue)
    (h : index2value s idx = some v) :
    luaL_checktype idx LuaType.LUA_TNONE s = Result.raise (LuaError.argerror idx) s := by
  cases v <;> simp [luaL_checktype, bind_apply, lua_type, h, luaL_argerror]

theorem copy_strings_run (l : List CString) : ∀ s : LuaState,
    copy_strings l s = Result.ok () { s with trace := s.trace ++ l.map Event.lua_copy } := by
  induction l with
  | nil => intro s; simp [copy_strings, pure_apply]
  | cons m rest ih =>
    intro s
    simp [copy_strings, bind_apply, emit, ih]

theorem import_string_array_run (l : List CString) (s : LuaState) :
    import_string_array l s = Result.ok ()
      { stack := s.stack ++ [LuaValue.table (l.map cstr)],
        registry := s.registry,
        trace := s.trace ++ l.map Event.lua_copy ++ [Event.glirc_free_strings l] } := by
  simp [import_string_array, bind_apply, copy_strings_run, push, emit]

theorem list_networks_run (H : Host) (reg : Registry) :
    call (glirc_lua_list_networks H) [] reg =
      match H.glirc_list_networks with
      | none => Result.raise (LuaError.error "client failure")
          { stack := [], registry := reg, trace := [Event.glirc_list_networks] }
      | some l => Result.ok 1
          { stack := [LuaValue.table (l.map cstr)], registry := reg,
            trace := [Event.glirc_list_networks] ++ l.map Event.lua_copy ++
              [Event.glirc_free_strings l] } := by
  unfold call glirc_lua_list_networks
  simp only [bind_apply]
  rw [luaL_checktype_none _ 1 (by rfl)]
  cases h : H.glirc_list_networks with
  | none => simp [emit, luaL_error]
  | some l => simp [emit, bind_apply, import_string_array_run, pure_apply]

theorem list_channels_run (H : Host) (reg : Registry) (network : Bytes) :
    call (glirc_lua_list_channels H) [LuaValue.string network] reg =
      match H.glirc_list_channels (ofBytes network) with
      | none => Result.raise (LuaError.error "no such network")
          { stack := [LuaValue.string network], registry := reg,
            trace := [Event.glirc_list_channels (ofBytes network)] }
      | some l => Result.ok 1
          { stack := [LuaValue.string network, LuaValue.table (l.map cstr)], registry := reg,
            trace := [Event.glirc_list_channels (ofBytes network)] ++ l.map Event.lua_copy ++
              [Event.glirc_free_strings l] } := by
  unfold call glirc_lua_list_channels
  simp only [bind_apply]
  rw [luaL_checklstring_string _ 1 network (by rfl)]
  simp only []
  rw [luaL_checktype_none _ 2 (by rfl)]
  cases h : H.glirc_list_channels (ofBytes network) with
  | none =>
    simp only [ofBytes] at h
    simp [emit, luaL_error, h, ofBytes]
  | some l =>
    simp only [ofBytes] at h
    simp [emit, bind_apply, import_string_array_run, pure_apply, h, ofBytes]

theorem list_channel_users_run (H : Host) (reg : Registry) (network channel : Bytes) :
    call (glirc_lua_list_channel_users H) [LuaValue.string network, LuaValue.string channel] reg =
      match H.glirc_list_channel_users (ofBytes network) (ofBytes channel) with
      | none => Result.raise (LuaError.error "no such channel")
          { stack := [LuaValue.string network, LuaValue.string channel], registry := reg,
            trace := [Event.glirc_list_channel_users (ofBytes network) (ofBytes channel)] }
      | some l => Result.ok 1
          { stack := [LuaValue.string network, LuaValue.string channel,
              LuaValue.table (l.map cstr)], registry := reg,
            trace := [Event.glirc_list_channel_users (ofBytes network) (ofBytes channel)] ++
              l.map Event.lua_copy ++ [Event.glirc_free_strings l] } := by
  unfold call glirc_lua_list_channel_users
  simp only [bind_apply]
  rw [luaL_checklstring_string _ 1 network (by rfl)]
  simp only []
  rw [luaL_checklstring_string _ 2 channel (by rfl)]
  simp only []
  rw [luaL_checktype_none _ 3 (by rfl)]
  cases h : H.glirc_list_channel_users (ofBytes network) (ofBytes channel) with
  | none =>
    simp only [ofBytes] at h
    simp [emit, luaL_error, h, ofBytes]
  | some l =>
    simp only [ofBytes] at h
    simp [emit, bind_apply, import_string_array_run, pure_apply, h, ofBytes]

/-- What `lua_pushstring` followed by `glirc_free_string` leaves. -/
theorem push_and_free_run (p : Option CString) (s : LuaState) :
    (lua_pushstring p >>= fun _ => glirc_free_string p >>= fun _ => (pure 1 : LuaM Int)) s =
      match p with
      | none => Result.ok 1
          { stack := s.stack ++ [LuaValue.nil], registry := s.registry,
            trace := s.trace ++ [Event.glirc_free_string none] }
      | some m => Result.ok 1
          { stack := s.stack ++ [LuaValue.string (cstr m)], registry := s.registry,
            trace := s.trace ++ [Event.lua_copy m, Event.glirc_free_string (some m)] } := by
  cases p with
  | none => simp [lua_pushstring, glirc_free_string, bind_apply, push, emit, pure_apply]
  | some m => simp [lua_pushstring, glirc_free_string, bind_apply, push, emit, pure_apply]

theorem user_account_run (H : Host) (reg : Registry) (net nick : Bytes) :
    call (glirc_lua_user_account H) [LuaValue.string net, LuaValue.string nick] reg =
      match H.glirc_user_account (ofBytes net) (ofBytes nick) with
      | none => Result.ok 1
          { stack := [LuaValue.string net, LuaValue.string nick, LuaValue.nil], registry := reg,
            trace := [Event.glirc_user_account (ofBytes net) (ofBytes nick),
              Event.glirc_free_string none] }
      | some m => Result.ok 1
          { stack := [LuaValue.string net, LuaValue.string nick, LuaValue.string (cstr m)],
            registry := reg,
            trace := [Event.glirc_user_account (ofBytes net) (ofBytes nick),
              Event.lua_copy m, Event.glirc_free_string (some m)] } := by
  unfold call glirc_lua_user_account
  simp only [bind_apply]
  rw [luaL_checklstring_string _ 1 net (by rfl)]
  simp only []
  rw [luaL_checklstring_string _ 2 nick (by rfl)]
  simp only []
  rw [luaL_checktype_none _ 3 (by rfl)]
  simp only [emit]
  have := push_and_free_run (H.glirc_user_account (ofBytes net) (ofBytes nick))
    { stack := [LuaValue.string net, LuaValue.string nick], registry := reg,
      trace := [] ++ [Event.glirc_user_account (ofBytes net) (ofBytes nick)] }
  simp only [bind_apply, ofBytes] at this
  simp only [ofBytes]
  rw [this]
  cases H.glirc_user_account { str := net, len := net.length } { str := nick, len := nick.length }
    <;> rfl


theorem user_channel_modes_run (H : Host) (reg : Registry) (net chan nick : Bytes) :
    call (glirc_lua_user_channel_modes H)
        [LuaValue.string net, LuaValue.string chan, LuaValue.string nick] reg =
      match H.glirc_user_channel_modes (ofBytes net) (ofBytes chan) (ofBytes nick) with
      | none => Result.ok 1
          { stack := [LuaValue.string net, LuaValue.string chan, LuaValue.string nick,
              LuaValue.nil], registry := reg,
            trace := [Event.glirc_user_channel_modes (ofBytes net) (ofBytes chan) (ofBytes nick),
              Event.glirc_free_string none] }
      | some m => Result.ok 1
          { stack := [LuaValue.string net, LuaValue.string chan, LuaValue.string nick,
              LuaValue.string (cstr m)],
            registry := reg,
            trace := [Event.glirc_user_channel_modes (ofBytes net) (ofBytes chan) (ofBytes nick),
              Event.lua_copy m, Event.glirc_free_string (some m)] } := by
  unfold call glirc_lua_user_channel_modes
  simp only [bind_apply]
  rw [luaL_checklstring_string _ 1 net (by rfl)]
  simp only []
  rw [luaL_checklstring_string _ 2 chan (by rfl)]
  simp only []
  rw [luaL_checklstring_string _ 3 nick (by rfl)]
  simp only []
  rw [luaL_checktype_none _ 4 (by rfl)]
  simp only [emit]
  have := push_and_free_run (H.glirc_user_channel_modes (ofBytes net) (ofBytes chan) (ofBytes nick))
    { stack := [LuaValue.string net, LuaValue.string chan, LuaValue.string nick],
      registry := reg,
      trace := [] ++ [Event.glirc_user_channel_modes (ofBytes net) (ofBytes chan) (ofBytes nick)] }
  simp only [bind_apply, ofBytes] at this
  simp only [ofBytes]
  rw [this]
  cases H.glirc_user_channel_modes { str := net, len := net.length }
    { str := chan, len := chan.length } { str := nick, len := nick.length } <;> rfl

theorem my_nick_run (H : Host) (reg : Registry) (net : Bytes) :
    call (glirc_lua_my_nick H) [LuaValue.string net] reg =
      match H.glirc_my_nick (ofBytes net) with
      | none => Result.ok 1
          { stack := [LuaValue.string net, LuaValue.nil], registry := reg,
            trace := [Event.glirc_my_nick (ofBytes net), Event.glirc_free_string none] }
      | some m => Result.ok 1
          { stack := [LuaValue.string net, LuaValue.string (cstr m)],
            registry := reg,
            trace := [Event.glirc_my_nick (ofBytes net),
              Event.lua_copy m, Event.glirc_free_string (some m)] } := by
  unfold call glirc_lua_my_nick
  simp only [bind_apply]
  rw [luaL_checklstring_string _ 1 net (by rfl)]
  simp only []
  rw [luaL_checktype_none _ 2 (by rfl)]
  simp only [emit]
  have := push_and_free_run (H.glirc_my_nick (ofBytes net))
    { stack := [LuaValue.string net], registry := reg,
      trace := [] ++ [Event.glirc_my_nick (ofBytes net)] }
  simp only [bind_apply, ofBytes] at this
  simp only [ofBytes]
  rw [this]
  cases H.glirc_my_nick { str := net, len := net.length } <;> rfl

theorem resolve_path_run (H : Host) (reg : Registry) (path : Bytes) :
    call (glirc_lua_resolve_path H) [LuaValue.string path] reg =
      match H.glirc_resolve_path (ofBytes path) with
      | none => Result.ok 1
          { stack := [LuaValue.string path, LuaValue.nil], registry := reg,
            trace := [Event.glirc_resolve_path (ofBytes path), Event.glirc_free_string none] }
      | some m => Result.ok 1
          { stack := [LuaValue.string path, LuaValue.string (cstr m)],
            registry := reg,
            trace := [Event.glirc_resolve_path (ofBytes path),
              Event.lua_copy m, Event.glirc_free_string (some m)] } := by
  unfold call glirc_lua_resolve_path
  simp only [bind_apply]
  rw [luaL_checklstring_string _ 1 path (by rfl)]
  simp only []
  rw [luaL_checktype_none _ 2 (by rfl)]
  simp only [emit]
  have := push_and_free_run (H.glirc_resolve_path (ofBytes path))
    { stack := [LuaValue.string path], registry := reg,
      trace := [] ++ [Event.glirc_resolve_path (ofBytes path)] }
  simp only [bind_apply, ofBytes] at this
  simp only [ofBytes]
  rw [this]
  cases H.glirc_resolve_path { str := path, len := path.length } <;> rfl

/-- The zero-terminated string at a pointer is what precedes the first zero. -/
theorem cstr_terminated (b : Bytes) (rest : List Nat) (h : ∀ x ∈ b, x ≠ 0) :
    cstr (b ++ 0 :: rest) = b := by
  induction b with
  | nil => simp [cstr]
  | cons x xs ih =>
    have hx : x ≠ 0 := h x (by simp)
    have := ih (fun y hy => h y (by simp [hy]))
    simp only [cstr] at this
    simp [cstr, hx, this]

theorem current_focus_run (H : Host) (reg : Registry) :
    call (glirc_lua_current_focus H) [] reg = Result.ok 2
      { stack := [LuaValue.string (H.glirc_current_focus.1.getD []),
          LuaValue.string (H.glirc_current_focus.2.getD [])],
        registry := reg,
        trace := [Event.glirc_current_focus,
          Event.lua_copy_len H.glirc_current_focus.1 (H.glirc_current_focus.1.getD []).length,
          Event.lua_copy_len H.glirc_current_focus.2 (H.glirc_current_focus.2.getD []).length,
          Event.glirc_free_string H.glirc_current_focus.1,
          Event.glirc_free_string H.glirc_current_focus.2] } := by
  unfold call glirc_lua_current_focus
  simp only [bind_apply]
  rw [luaL_checktype_none _ 1 (by rfl)]
  simp [emit, bind_apply, lua_pushlstring, push, glirc_free_string, pure_apply]

theorem identifier_cmp_run (reg : Registry) (a b : Bytes) :
    call glirc_lua_identifier_cmp [LuaValue.string a, LuaValue.string b] reg = Result.ok 1
      { stack := [LuaValue.string a, LuaValue.string b,
          LuaValue.integer (compareBytes (ircFoldCase a) (ircFoldCase b))],
        registry := reg,
        trace := [Event.glirc_identifier_cmp (ofBytes a) (ofBytes b)] } := by
  unfold call glirc_lua_identifier_cmp
  simp only [bind_apply]
  rw [luaL_checklstring_string _ 1 a (by rfl)]
  simp only []
  rw [luaL_checklstring_string _ 2 b (by rfl)]
  simp only []
  rw [luaL_checktype_none _ 3 (by rfl)]
  simp [emit, bind_apply, lua_pushinteger, push, pure_apply, glirc_identifier_cmp, ofBytes]

/-! ## Three-way comparison -/

theorem compareBytes_range (a : Bytes) : ∀ b : Bytes,
    compareBytes a b = -1 ∨ compareBytes a b = 0 ∨ compareBytes a b = 1 := by
  induction a with
  | nil => intro b; cases b <;> simp [compareBytes]
  | cons x xs ih =>
    intro b
    cases b with
    | nil => simp [compareBytes]
    | cons y ys =>
      simp only [compareBytes]
      split
      · simp
      · split
        · simp
        · exact ih ys

theorem compareBytes_antisymm (a : Bytes) : ∀ b : Bytes,
    compareBytes a b = - compareBytes b a := by
  induction a with
  | nil => intro b; cases b <;> simp [compareBytes]
  | cons x xs ih =>
    intro b
    cases b with
    | nil => simp [compareBytes]
    | cons y ys =>
      simp only [compareBytes]
      by_cases h1 : x < y
      · have h2 : ¬ y < x := by omega
        simp [h1, h2]
      · by_cases h2 : y < x
        · simp [h1, h2]
        · simp [h1, h2, ih ys]

theorem compareBytes_eq_zero (a : Bytes) : ∀ b : Bytes, compareBytes a b = 0 ↔ a = b := by
  induction a with
  | nil => intro b; cases b <;> simp [compareBytes]
  | cons x xs ih =>
    intro b
    cases b with
    | nil => simp [compareBytes]
    | cons y ys =>
      simp only [compareBytes]
      by_cases h1 : x < y
      · have : x ≠ y := by omega
        simp [h1, this]
      · by_cases h2 : y < x
        · have : x ≠ y := by omega
          simp [h1, h2, this]
        · have : x = y := by omega
          simp [h1, h2, this, ih ys]

theorem compareBytes_eq_neg_one (a : Bytes) : ∀ b : Bytes,
    compareBytes a b = -1 ↔ List.Lex (fun x y : Nat => x < y) a b := by
  induction a with
  | nil =>
    intro b
    cases b with
    | nil =>
      simp only [compareBytes]
      constructor
      · intro h; omega
      · intro h; cases h
    | cons y ys =>
      simp only [compareBytes, true_iff]
      exact List.Lex.nil
  | cons x xs ih =>
    intro b
    cases b with
    | nil =>
      simp only [compareBytes]
      constructor
      · intro h; omega
      · intro h; cases h
    | cons y ys =>
      simp only [compareBytes]
      by_cases h1 : x < y
      · simp only [h1, if_true, true_iff]
        exact List.Lex.rel h1
      · by_cases h2 : y < x
        · simp only [h1, h2, if_false, if_true]
          constructor
          · intro h; omega
          · intro h
            cases h with
            | rel h => exact absurd h h1
            | cons h => omega
        · simp only [h1, h2, if_false]
          rw [ih ys]
          have hxy : x = y := by omega
          subst hxy
          constructor
          · intro h; exact List.Lex.cons h
          · intro h
            cases h with
            | rel h => exact absurd h h1
            | cons h => exact h

theorem compareBytes_eq_one (a b : Bytes) :
    compareBytes a b = 1 ↔ List.Lex (fun x y : Nat => x < y) b a := by
  rw [← compareBytes_eq_neg_one b a, compareBytes_antisymm a b]
  omega

/-! ## Arity checks -/

/-- Every operation of fixed arity that checks for the absence of the argument
after its last one raises an argument error on that position when given one
more, before any call to the host. -/
theorem fixed_arity_rejects_extra_argument (H : Host) (reg : Registry) (a b c : Bytes)
    (x : LuaValue) :
    call glirc_lua_print [LuaValue.string a, x] reg
      = Result.raise (LuaError.argerror 2)
          { stack := [LuaValue.string a, x], registry := reg, trace := [] } ∧
    call glirc_lua_error [LuaValue.string a, x] reg
      = Result.raise (LuaError.argerror 2)
          { stack := [LuaValue.string a, x], registry := reg, trace := [] } ∧
    call (glirc_lua_list_networks H) [x] reg
      = Result.raise (LuaError.argerror 1) { stack := [x], registry := reg, trace := [] } ∧
    call (glirc_lua_list_channels H) [LuaValue.string a, x] reg
      = Result.raise (LuaError.argerror 2)
          { stack := [LuaValue.string a, x], registry := reg, trace := [] } ∧
    call (glirc_lua_list_channel_users H) [LuaValue.string a, LuaValue.string b, x] reg
      = Result.raise (LuaError.argerror 3)
          { stack := [LuaValue.string a, LuaValue.string b, x], registry := reg, trace := [] } ∧
    call (glirc_lua_user_account H) [LuaValue.string a, LuaValue.string b, x] reg
      = Result.raise (LuaError.argerror 3)
          { stack := [LuaValue.string a, LuaValue.string b, x], registry := reg, trace := [] } ∧
    call (glirc_lua_user_channel_modes H)
        [LuaValue.string a, LuaValue.string b, LuaValue.string c, x] reg
      = Result.raise (LuaError.argerror 4)
          { stack := [LuaValue.string a, LuaValue.string b, LuaValue.string c, x],
            registry := reg, trace := [] } ∧
    call (glirc_lua_my_nick H) [LuaValue.string a, x] reg
      = Result.raise (LuaError.argerror 2)
          { stack := [LuaValue.string a, x], registry := reg, trace := [] } ∧
    call (glirc_lua_is_logged_on H) [LuaValue.string a, LuaValue.string b, x] reg
      = Result.raise (LuaError.argerror 3)
          { stack := [LuaValue.string a, LuaValue.string b, x], registry := reg, trace := [] } ∧
    call (glirc_lua_is_channel H) [LuaValue.string a, LuaValue.string b, x] reg
      = Result.raise (LuaError.argerror 3)
          { stack := [LuaValue.string a, LuaValue.string b, x], registry := reg, trace := [] } ∧
    call (glirc_lua_resolve_path H) [LuaValue.string a, x] reg
      = Result.raise (LuaError.argerror 2)
          { stack := [LuaValue.string a, x], registry := reg, trace := [] } ∧
    call glirc_lua_identifier_cmp [LuaValue.string a, LuaValue.string b, x] reg
      = Result.raise (LuaError.argerror 3)
          { stack := [LuaValue.string a, LuaValue.string b, x], registry := reg, trace := [] } := by
  refine ⟨?_, ?_, ?_, ?_, ?_, ?_, ?_, ?_, ?_, ?_, ?_, ?_⟩
  · unfold call glirc_lua_print
    simp only [bind_apply]
    rw [luaL_checklstring_string _ 1 a (by rfl)]
    simp only []
    rw [luaL_checktype_some _ 2 x (by rfl)]
  · unfold call glirc_lua_error
    simp only [bind_apply]
    rw [luaL_checklstring_string _ 1 a (by rfl)]
    simp only []
    rw [luaL_checktype_some _ 2 x (by rfl)]
  · unfold call glirc_lua_list_networks
    simp only [bind_apply]
    rw [luaL_checktype_some _ 1 x (by rfl)]
  · unfold call glirc_lua_list_channels
    simp only [bind_apply]
    rw [luaL_checklstring_string _ 1 a (by rfl)]
    simp only []
    rw [luaL_checktype_some _ 2 x (by rfl)]
  · unfold call glirc_lua_list_channel_users
    simp only [bind_apply]
    rw [luaL_checklstring_string _ 1 a (by rfl)]
    simp only []
    rw [luaL_checklstring_string _ 2 b (by rfl)]
    simp only []
    rw [luaL_checktype_some _ 3 x (by rfl)]
  · unfold call glirc_lua_user_account
    simp only [bind_apply]
    rw [luaL_checklstring_string _ 1 a (by rfl)]
    simp only []
    rw [luaL_checklstring_string _ 2 b (by rfl)]
    simp only []
    rw [luaL_checktype_some _ 3 x (by rfl)]
  · unfold call glirc_lua_user_channel_modes
    simp only [bind_apply]
    rw [luaL_checklstring_string _ 1 a (by rfl)]
    simp only []
    rw [luaL_checklstring_string _ 2 b (by rfl)]
    simp only []
    rw [luaL_checklstring_string _ 3 c (by rfl)]
    simp only []
    rw [luaL_checktype_some _ 4 x (by rfl)]
  · unfold call glirc_lua_my_nick
    simp only [bind_apply]
    rw [luaL_checklstring_string _ 1 a (by rfl)]
    simp only []
    rw [luaL_checktype_some _ 2 x (by rfl)]
  · unfold call glirc_lua_is_logged_on
    simp only [bind_apply]
    rw [luaL_checklstring_string _ 1 a (by rfl)]
    simp only []
    rw [luaL_checklstring_string _ 2 b (by rfl)]
    simp only []
    rw [luaL_checktype_some _ 3 x (by rfl)]
  · unfold call glirc_lua_is_channel
    simp only [bind_apply]
    rw [luaL_checklstring_string _ 1 a (by rfl)]
    simp only []
    rw [luaL_checklstring_string _ 2 b (by rfl)]
    simp only []
    rw [luaL_checktype_some _ 3 x (by rfl)]
  · unfold call glirc_lua_resolve_path
    simp only [bind_apply]
    rw [luaL_checklstring_string _ 1 a (by rfl)]
    simp only []
    rw [luaL_checktype_some _ 2 x (by rfl)]
  · unfold call glirc_lua_identifier_cmp
    simp only [bind_apply]
    rw [luaL_checklstring_string _ 1 a (by rfl)]
    simp only []
    rw [luaL_checklstring_string _ 2 b (by rfl)]
    simp only []
    rw [luaL_checktype_some _ 3 x (by rfl)]

/-! ## The claims -/

/-- C1. For a `send_message` call whose first two arguments are strings: with
at most 15 further arguments, all strings, the request is marshaled and the
host send operation is called exactly once: the log is the one call of
`glirc_send_message`, on the message made of the network, the command and the
parameters in their order, and the call then ends without an argument error
(it returns nothing, or raises `client failure` on the word of the host). With
16 or more further arguments of any kind the error `too many parameters` is
raised and the log is empty, so the host is not called. -/
theorem send_message_parameter_ceiling (H : Host) (reg : Registry) (network command : Bytes) :
    (∀ ps : List Bytes, ps.length ≤ 15 →
      (call (glirc_lua_send_message H)
          (LuaValue.string network :: LuaValue.string command :: ps.map LuaValue.string)
          reg).log
        = [Event.glirc_send_message
            { network := { str := network, len := network.length },
              command := { str := command, len := command.length },
              params := ps.map (fun p => { str := p, len := p.length }),
              params_n := ps.length }] ∧
      ((call (glirc_lua_send_message H)
          (LuaValue.string network :: LuaValue.string command :: ps.map LuaValue.string)
          reg).outcome = Except.ok [] ∨
       (call (glirc_lua_send_message H)
          (LuaValue.string network :: LuaValue.string command :: ps.map LuaValue.string)
          reg).outcome = Except.error (LuaError.error "client failure"))) ∧
    (∀ extra : List LuaValue, 16 ≤ extra.length →
      (call (glirc_lua_send_message H)
          (LuaValue.string network :: LuaValue.string command :: extra) reg).outcome
        = Except.error (LuaError.error "too many parameters") ∧
      (call (glirc_lua_send_message H)
          (LuaValue.string network :: LuaValue.string command :: extra) reg).log = []) := by
  constructor
  · intro ps hps
    rw [send_message_run H network command ps hps reg]
    constructor
    · split <;> rfl
    · by_cases hz : H.glirc_send_message (request network command ps) = 0
      · left; simp [hz, Result.outcome]
      · right; simp [hz, Result.outcome]
  · intro extra hx
    rw [send_message_too_many H network command extra hx reg]
    exact ⟨rfl, rfl⟩

/-- Witness of C1: one parameter is sent as it is, sixteen are refused. -/
theorem send_message_parameter_ceiling_witness :
    (call (glirc_lua_send_message sampleHost)
        (LuaValue.string [1] :: LuaValue.string [2] :: [[3, 0, 4]].map LuaValue.string)
        sampleRegistry).log
      = [Event.glirc_send_message
          { network := { str := [1], len := [1].length },
            command := { str := [2], len := [2].length },
            params := ([[3, 0, 4]] : List Bytes).map (fun p => { str := p, len := p.length }),
            params_n := ([[3, 0, 4]] : List Bytes).length }] ∧
    (call (glirc_lua_send_message sampleHost)
        (LuaValue.string [1] :: LuaValue.string [2] :: List.replicate 16 LuaValue.nil)
        sampleRegistry).outcome = Except.error (LuaError.error "too many parameters") :=
  ⟨((send_message_parameter_ceiling sampleHost sampleRegistry [1] [2]).1 [[3, 0, 4]]
      (by decide)).1,
   ((send_message_parameter_ceiling sampleHost sampleRegistry [1] [2]).2
      (List.replicate 16 LuaValue.nil) (by decide)).1⟩

/-- C2. For a `send_message` call with string arguments network, command and
`n ≤ 15` parameters, the message handed to the host has `network` and `command`
equal to arguments 1 and 2, `params_n = n`, and `params` equal to the
parameters in their order, each with `len` the full number of its bytes
(whatever the bytes are, zero included). -/
theorem send_message_request_fields (H : Host) (reg : Registry) (network command : Bytes)
    (ps : List Bytes) (hn : ps.length ≤ 15) :
    ∃ msg, (call (glirc_lua_send_message H)
          (LuaValue.string network :: LuaValue.string command :: ps.map LuaValue.string)
          reg).log = [Event.glirc_send_message msg] ∧
      msg.network = { str := network, len := network.length } ∧
      msg.command = { str := command, len := command.length } ∧
      msg.params_n = ps.length ∧
      msg.params = ps.map (fun p => { str := p, len := p.length }) := by
  refine ⟨request network command ps, ?_, rfl, rfl, rfl, rfl⟩
  rw [send_message_run H network command ps hn reg]
  split <;> rfl

/-- Witness of C2: a parameter with a zero byte inside keeps its length 3. -/
theorem send_message_request_fields_witness :
    ∃ msg, (call (glirc_lua_send_message sampleHost)
          (LuaValue.string [110] :: LuaValue.string [99] :: [[1, 0, 2], []].map LuaValue.string)
          sampleRegistry).log = [Event.glirc_send_message msg] ∧
      msg.network = { str := [110], len := [110].length } ∧
      msg.command = { str := [99], len := [99].length } ∧
      msg.params_n = ([[1, 0, 2], []] : List Bytes).length ∧
      msg.params = ([[1, 0, 2], []] : List Bytes).map (fun p => { str := p, len := p.length }) :=
  send_message_request_fields sampleHost sampleRegistry [110] [99] [[1, 0, 2], []] (by decide)

/-- C3. For a well-formed `send_message` call (two strings and at most 15
string parameters) and a well-formed `inject_chat` call (four strings), the
error `client failure` is raised exactly when the host operation returns a
nonzero status, and when it returns zero the call returns no value. -/
theorem client_failure_iff_host_nonzero (H : Host) (reg : Registry) :
    (∀ (network command : Bytes) (ps : List Bytes), ps.length ≤ 15 →
      ∃ msg, (call (glirc_lua_send_message H)
          (LuaValue.string network :: LuaValue.string command :: ps.map LuaValue.string)
          reg).log = [Event.glirc_send_message msg] ∧
        ((call (glirc_lua_send_message H)
          (LuaValue.string network :: LuaValue.string command :: ps.map LuaValue.string)
          reg).outcome = Except.error (LuaError.error "client failure")
            ↔ H.glirc_send_message msg ≠ 0) ∧
        (H.glirc_send_message msg = 0 →
          (call (glirc_lua_send_message H)
            (LuaValue.string network :: LuaValue.string command :: ps.map LuaValue.string)
            reg).outcome = Except.ok [])) ∧
    (∀ net src tgt msg : Bytes,
      ((call (glirc_lua_inject_chat H)
          [LuaValue.string net, LuaValue.string src, LuaValue.string tgt, LuaValue.string msg]
          reg).outcome = Except.error (LuaError.error "client failure")
        ↔ H.glirc_inject_chat ⟨net, net.length⟩ ⟨src, src.length⟩ ⟨tgt, tgt.length⟩
            ⟨msg, msg.length⟩ ≠ 0) ∧
      (H.glirc_inject_chat ⟨net, net.length⟩ ⟨src, src.length⟩ ⟨tgt, tgt.length⟩
            ⟨msg, msg.length⟩ = 0 →
        (call (glirc_lua_inject_chat H)
          [LuaValue.string net, LuaValue.string src, LuaValue.string tgt, LuaValue.string msg]
          reg).outcome = Except.ok [])) := by
  constructor
  · intro network command ps hps
    refine ⟨request network command ps, ?_, ?_, ?_⟩
    · rw [send_message_run H network command ps hps reg]
      split <;> rfl
    · rw [send_message_run H network command ps hps reg]
      by_cases hz : H.glirc_send_message (request network command ps) = 0
      · simp [hz, Result.outcome]
      · simp [hz, Result.outcome]
    · intro hz
      rw [send_message_run H network command ps hps reg]
      simp [hz, Result.outcome]
  · intro net src tgt msg
    rw [inject_chat_run H net src tgt msg [] reg]
    by_cases hz : H.glirc_inject_chat (ofBytes net) (ofBytes src) (ofBytes tgt) (ofBytes msg) = 0
    · have hz2 := hz
      simp only [ofBytes] at hz2
      simp [hz, hz2, Result.outcome]
    · have hz2 := hz
      simp only [ofBytes] at hz2
      simp [hz, hz2, Result.outcome]

/-- Witness of C3: the sample host accepts a send (status 0), and the call
returns nothing. -/
theorem client_failure_iff_host_nonzero_witness :
    ∃ msg, (call (glirc_lua_send_message sampleHost)
          (LuaValue.string [1] :: LuaValue.string [2] :: [[3]].map LuaValue.string)
          sampleRegistry).log = [Event.glirc_send_message msg] ∧
      (call (glirc_lua_send_message sampleHost)
          (LuaValue.string [1] :: LuaValue.string [2] :: [[3]].map LuaValue.string)
          sampleRegistry).outcome = Except.ok [] :=
  let ⟨msg, hlog, _, hz⟩ :=
    (client_failure_iff_host_nonzero sampleHost sampleRegistry).1 [1] [2] [[3]] (by decide)
  ⟨msg, hlog, hz rfl⟩

/-- C4. A null array from the host is a raised error with the message of the
call site (`client failure`, `no such network`, `no such channel`) and nothing
is imported: the log holds the host call alone. A non-null array `l`, empty or
not, raises nothing and exactly one value is returned, the table that
`import_string_array` pushes for `l`. -/
theorem list_null_is_error_not_empty (H : Host) (reg : Registry) (network channel : Bytes) :
    (H.glirc_list_networks = none →
      (call (glirc_lua_list_networks H) [] reg).outcome
        = Except.error (LuaError.error "client failure") ∧
      (call (glirc_lua_list_networks H) [] reg).log = [Event.glirc_list_networks]) ∧
    (H.glirc_list_channels ⟨network, network.length⟩ = none →
      (call (glirc_lua_list_channels H) [LuaValue.string network] reg).outcome
        = Except.error (LuaError.error "no such network") ∧
      (call (glirc_lua_list_channels H) [LuaValue.string network] reg).log
        = [Event.glirc_list_channels ⟨network, network.length⟩]) ∧
    (H.glirc_list_channel_users ⟨network, network.length⟩ ⟨channel, channel.length⟩ = none →
      (call (glirc_lua_list_channel_users H)
          [LuaValue.string network, LuaValue.string channel] reg).outcome
        = Except.error (LuaError.error "no such channel") ∧
      (call (glirc_lua_list_channel_users H)
          [LuaValue.string network, LuaValue.string channel] reg).log
        = [Event.glirc_list_channel_users ⟨network, network.length⟩
            ⟨channel, channel.length⟩]) ∧
    (∀ l, H.glirc_list_networks = some l →
      (call (glirc_lua_list_networks H) [] reg).outcome
        = Except.ok [LuaValue.table (l.map cstr)]) ∧
    (∀ l, H.glirc_list_channels ⟨network, network.length⟩ = some l →
      (call (glirc_lua_list_channels H) [LuaValue.string network] reg).outcome
        = Except.ok [LuaValue.table (l.map cstr)]) ∧
    (∀ l, H.glirc_list_channel_users ⟨network, network.length⟩ ⟨channel, channel.length⟩
        = some l →
      (call (glirc_lua_list_channel_users H)
          [LuaValue.string network, LuaValue.string channel] reg).outcome
        = Except.ok [LuaValue.table (l.map cstr)]) ∧
    (∀ (l : List CString) (s : LuaState),
      (import_string_array l s).state.stack = s.stack ++ [LuaValue.table (l.map cstr)]) := by
  refine ⟨?_, ?_, ?_, ?_, ?_, ?_, ?_⟩
  · intro h
    rw [list_networks_run, h]
    exact ⟨rfl, rfl⟩
  · intro h
    have h2 : H.glirc_list_channels (ofBytes network) = none := h
    rw [list_channels_run, h2]
    exact ⟨rfl, rfl⟩
  · intro h
    have h2 : H.glirc_list_channel_users (ofBytes network) (ofBytes channel) = none := h
    rw [list_channel_users_run, h2]
    exact ⟨rfl, rfl⟩
  · intro l h
    rw [list_networks_run, h]
    rfl
  · intro l h
    have h2 : H.glirc_list_channels (ofBytes network) = some l := h
    rw [list_channels_run, h2]
    rfl
  · intro l h
    have h2 : H.glirc_list_channel_users (ofBytes network) (ofBytes channel) = some l := h
    rw [list_channel_users_run, h2]
    rfl
  · intro l s
    rw [import_string_array_run]
    rfl

/-- Witness of C4: on the sample host an unknown network is an error and an
empty user array is an empty table. -/
theorem list_null_is_error_not_empty_witness :
    (call (glirc_lua_list_channels sampleHost) [LuaValue.string [110]] sampleRegistry).outcome
        = Except.error (LuaError.error "no such network") ∧
    (call (glirc_lua_list_channel_users sampleHost)
        [LuaValue.string [110], LuaValue.string [35]] sampleRegistry).outcome
        = Except.ok [LuaValue.table (([] : List CString).map cstr)] :=
  ⟨((list_null_is_error_not_empty sampleHost sampleRegistry [110] [35]).2.1 rfl).1,
   (list_null_is_error_not_empty sampleHost sampleRegistry [110] [35]).2.2.2.2.2.1 [] rfl⟩

/-- C5. For `user_account`, `user_channel_modes`, `my_nick` and
`resolve_path`: when the host returns `NULL` the script receives nil; when it
returns a pointer to the bytes `b` followed by the terminating zero, the script
receives exactly `b`, and the log after the host call is the copy of the string
followed by one `glirc_free_string` of that pointer, so the allocation is
released once and after the copy. -/
theorem optional_string_lookups (H : Host) (reg : Registry) (net chan nick path : Bytes) :
    (H.glirc_user_account ⟨net, net.length⟩ ⟨nick, nick.length⟩ = none →
      (call (glirc_lua_user_account H) [LuaValue.string net, LuaValue.string nick] reg).outcome
        = Except.ok [LuaValue.nil]) ∧
    (∀ (b : Bytes) (rest : List Nat), (∀ x ∈ b, x ≠ 0) →
      H.glirc_user_account ⟨net, net.length⟩ ⟨nick, nick.length⟩ = some (b ++ 0 :: rest) →
      (call (glirc_lua_user_account H) [LuaValue.string net, LuaValue.string nick] reg).outcome
        = Except.ok [LuaValue.string b] ∧
      (call (glirc_lua_user_account H) [LuaValue.string net, LuaValue.string nick] reg).log
        = [Event.glirc_user_account ⟨net, net.length⟩ ⟨nick, nick.length⟩,
           Event.lua_copy (b ++ 0 :: rest),
           Event.glirc_free_string (some (b ++ 0 :: rest))]) ∧
    (H.glirc_user_channel_modes ⟨net, net.length⟩ ⟨chan, chan.length⟩ ⟨nick, nick.length⟩
        = none →
      (call (glirc_lua_user_channel_modes H)
          [LuaValue.string net, LuaValue.string chan, LuaValue.string nick] reg).outcome
        = Except.ok [LuaValue.nil]) ∧
    (∀ (b : Bytes) (rest : List Nat), (∀ x ∈ b, x ≠ 0) →
      H.glirc_user_channel_modes ⟨net, net.length⟩ ⟨chan, chan.length⟩ ⟨nick, nick.length⟩
        = some (b ++ 0 :: rest) →
      (call (glirc_lua_user_channel_modes H)
          [LuaValue.string net, LuaValue.string chan, LuaValue.string nick] reg).outcome
        = Except.ok [LuaValue.string b] ∧
      (call (glirc_lua_user_channel_modes H)
          [LuaValue.string net, LuaValue.string chan, LuaValue.string nick] reg).log
        = [Event.glirc_user_channel_modes ⟨net, net.length⟩ ⟨chan, chan.length⟩
             ⟨nick, nick.length⟩,
           Event.lua_copy (b ++ 0 :: rest),
           Event.glirc_free_string (some (b ++ 0 :: rest))]) ∧
    (H.glirc_my_nick ⟨net, net.length⟩ = none →
      (call (glirc_lua_my_nick H) [LuaValue.string net] reg).outcome
        = Except.ok [LuaValue.nil]) ∧
    (∀ (b : Bytes) (rest : List Nat), (∀ x ∈ b, x ≠ 0) →
      H.glirc_my_nick ⟨net, net.length⟩ = some (b ++ 0 :: rest) →
      (call (glirc_lua_my_nick H) [LuaValue.string net] reg).outcome
        = Except.ok [LuaValue.string b] ∧
      (call (glirc_lua_my_nick H) [LuaValue.string net] reg).log
        = [Event.glirc_my_nick ⟨net, net.length⟩,
           Event.lua_copy (b ++ 0 :: rest),
           Event.glirc_free_string (some (b ++ 0 :: rest))]) ∧
    (H.glirc_resolve_path ⟨path, path.length⟩ = none →
      (call (glirc_lua_resolve_path H) [LuaValue.string path] reg).outcome
        = Except.ok [LuaValue.nil]) ∧
    (∀ (b : Bytes) (rest : List Nat), (∀ x ∈ b, x ≠ 0) →
      H.glirc_resolve_path ⟨path, path.length⟩ = some (b ++ 0 :: rest) →
      (call (glirc_lua_resolve_path H) [LuaValue.string path] reg).outcome
        = Except.ok [LuaValue.string b] ∧
      (call (glirc_lua_resolve_path H) [LuaValue.string path] reg).log
        = [Event.glirc_resolve_path ⟨path, path.length⟩,
           Event.lua_copy (b ++ 0 :: rest),
           Event.glirc_free_string (some (b ++ 0 :: rest))]) := by
  refine ⟨?_, ?_, ?_, ?_, ?_, ?_, ?_, ?_⟩
  · intro h
    have h2 : H.glirc_user_account (ofBytes net) (ofBytes nick) = none := h
    rw [user_account_run, h2]
    rfl
  · intro b rest hb h
    have h2 : H.glirc_user_account (ofBytes net) (ofBytes nick) = some (b ++ 0 :: rest) := h
    rw [user_account_run, h2]
    refine ⟨?_, rfl⟩
    simp [Result.outcome, cstr_terminated b rest hb]
  · intro h
    have h2 : H.glirc_user_channel_modes (ofBytes net) (ofBytes chan) (ofBytes nick) = none := h
    rw [user_channel_modes_run, h2]
    rfl
  · intro b rest hb h
    have h2 : H.glirc_user_channel_modes (ofBytes net) (ofBytes chan) (ofBytes nick)
        = some (b ++ 0 :: rest) := h
    rw [user_channel_modes_run, h2]
    refine ⟨?_, rfl⟩
    simp [Result.outcome, cstr_terminated b rest hb]
  · intro h
    have h2 : H.glirc_my_nick (ofBytes net) = none := h
    rw [my_nick_run, h2]
    rfl
  · intro b rest hb h
    have h2 : H.glirc_my_nick (ofBytes net) = some (b ++ 0 :: rest) := h
    rw [my_nick_run, h2]
    refine ⟨?_, rfl⟩
    simp [Result.outcome, cstr_terminated b rest hb]
  · intro h
    have h2 : H.glirc_resolve_path (ofBytes path) = none := h
    rw [resolve_path_run, h2]
    rfl
  · intro b rest hb h
    have h2 : H.glirc_resolve_path (ofBytes path) = some (b ++ 0 :: rest) := h
    rw [resolve_path_run, h2]
    refine ⟨?_, rfl⟩
    simp [Result.outcome, cstr_terminated b rest hb]

/-- Witness of C5: the sample host knows no account (nil) and answers `my_nick`
with the bytes 109, 101 before the terminator. -/
theorem optional_string_lookups_witness :
    (call (glirc_lua_user_account sampleHost)
        [LuaValue.string [110], LuaValue.string [107]] sampleRegistry).outcome
      = Except.ok [LuaValue.nil] ∧
    (call (glirc_lua_my_nick sampleHost) [LuaValue.string [110]] sampleRegistry).outcome
      = Except.ok [LuaValue.string [109, 101]] ∧
    (call (glirc_lua_my_nick sampleHost) [LuaValue.string [110]] sampleRegistry).log
      = [Event.glirc_my_nick ⟨[110], 1⟩, Event.lua_copy [109, 101, 0, 7],
         Event.glirc_free_string (some [109, 101, 0, 7])] :=
  ⟨(optional_string_lookups sampleHost sampleRegistry [110] [] [107] []).1 rfl,
   (optional_string_lookups sampleHost sampleRegistry [110] [] [107] []).2.2.2.2.2.1
      [109, 101] [7] (by decide) rfl⟩

/-- C6 (the code departs from it). When the host leaves both out-parameters at
`NULL`, `current_focus` returns two empty strings, not two nil values; when it
sets the network only, the second value is the empty string, not nil. When it
sets both, both strings are returned. Whatever the host answers, both returned
values are strings. -/
theorem current_focus_null_is_empty_string (H : Host) (reg : Registry) (net tgt : Bytes) :
    (call (glirc_lua_current_focus { H with glirc_current_focus := (none, none) }) [] reg).outcome
      = Except.ok [LuaValue.string [], LuaValue.string []] ∧
    (call (glirc_lua_current_focus { H with glirc_current_focus := (some net, none) }) []
        reg).outcome
      = Except.ok [LuaValue.string net, LuaValue.string []] ∧
    (call (glirc_lua_current_focus { H with glirc_current_focus := (some net, some tgt) }) []
        reg).outcome
      = Except.ok [LuaValue.string net, LuaValue.string tgt] ∧
    (∃ a b, (call (glirc_lua_current_focus H) [] reg).outcome
      = Except.ok [LuaValue.string a, LuaValue.string b]) := by
  refine ⟨?_, ?_, ?_, ⟨H.glirc_current_focus.1.getD [], H.glirc_current_focus.2.getD [], ?_⟩⟩
    <;> rw [current_focus_run] <;> simp [Result.outcome]

/-- C8, as amended. When the closure registered under the token fails in
`on_timer`, the failure stays inside: `on_timer` returns normally, the stack is
what it was (so its height too), and after the call of the closure the log
holds exactly one `glirc_print`, of kind `ERROR_MESSAGE`. Its message is the
error object as `lua_tolstring` gives it: the bytes of a string, the decimal
digits of a number, and `NULL` with length 0 for any other error object. When
the closure succeeds, the log holds the call alone: no message is sent. -/
theorem on_timer_failure_is_printed (rt : LuaRuntime) (s : LuaState) (tok : Nat) (c : Nat)
    (hreg : s.registry.get tok = LuaValue.closure c) :
    (∀ e, (rt.pcall (LuaValue.closure c) (luaL_unref_table s.registry tok)).1 = some e →
      ∃ msg len s1, on_timer rt tok s = Result.ok () s1 ∧ s1.stack = s.stack ∧
        s1.trace = s.trace ++
          [Event.invoke (LuaValue.closure c) 0 (luaL_unref_table s.registry tok),
           Event.glirc_print message_code.ERROR_MESSAGE msg len] ∧
        (∀ b, e = LuaValue.string b → msg = some b ∧ len = b.length) ∧
        (∀ n, e = LuaValue.integer n →
          msg = some (lua_integer2str n) ∧ len = (lua_integer2str n).length) ∧
        ((∀ b, e ≠ LuaValue.string b) → (∀ n, e ≠ LuaValue.integer n) →
          msg = none ∧ len = 0)) ∧
    ((rt.pcall (LuaValue.closure c) (luaL_unref_table s.registry tok)).1 = none →
      ∃ s1, on_timer rt tok s = Result.ok () s1 ∧ s1.stack = s.stack ∧
        s1.trace = s.trace ++
          [Event.invoke (LuaValue.closure c) 0 (luaL_unref_table s.registry tok)]) ∧
    lua_integer2str 42 = [52, 50] ∧ lua_integer2str (-12) = [45, 49, 50] := by
  have hraw : rawgeti s.registry (tok : Int) = LuaValue.closure c := by
    rw [rawgeti_nat, hreg]
  refine ⟨?_, ?_, by decide, by decide⟩
  · intro e he
    rw [← hraw] at he
    obtain ⟨msg, len, hrun, htext⟩ := on_timer_failed rt tok s e he
    rw [hraw] at hrun
    exact ⟨msg, len, _, hrun, rfl, rfl, htext⟩
  · intro he
    rw [← hraw] at he
    have hrun := on_timer_ok rt tok s he
    rw [hraw] at hrun
    exact ⟨_, hrun, rfl, rfl⟩

/-- Witness of C8: closure 7 fails with the text `err`; the stack is left as it
was and the one error message carries the three bytes. -/
theorem on_timer_failure_is_printed_witness :
    ∃ s1,
      on_timer sampleRuntime (2 : Nat)
          { stack := [LuaValue.nil],
            registry := { free := LuaValue.nil, arr := [LuaValue.table [], LuaValue.closure 7] },
            trace := [] } = Result.ok () s1 ∧
      s1.stack = [LuaValue.nil] ∧
      s1.trace = [] ++
        [Event.invoke (LuaValue.closure 7) 0
            (luaL_unref_table
              { free := LuaValue.nil, arr := [LuaValue.table [], LuaValue.closure 7] }
              (2 : Nat)),
         Event.glirc_print message_code.ERROR_MESSAGE (some [101, 114, 114]) 3] := by
  obtain ⟨msg, len, s1, h1, h2, h3, h4, _⟩ :=
    (on_timer_failure_is_printed sampleRuntime
      { stack := [LuaValue.nil],
        registry := { free := LuaValue.nil, arr := [LuaValue.table [], LuaValue.closure 7] },
        trace := [] } 2 7 rfl).1 (LuaValue.string [101, 114, 114]) rfl
  obtain ⟨hm, hl⟩ := h4 [101, 114, 114] rfl
  subst hm
  subst hl
  exact ⟨s1, h1, h2, h3⟩

/-- C8 as first stated fails on an error object that is not a text. When the
closure fails with a table as error object, the one message `on_timer` sends
is the `NULL` pointer with length 0: it carries nothing of the error. -/
theorem on_timer_table_error_has_no_text :
    (on_timer tableErrorRuntime (2 : Nat)
        { stack := [],
          registry := { free := LuaValue.nil, arr := [LuaValue.table [], LuaValue.closure 7] },
          trace := [] }).log
      = [Event.invoke (LuaValue.closure 7) 0
            (luaL_unref_table
              { free := LuaValue.nil, arr := [LuaValue.table [], LuaValue.closure 7] }
              (2 : Nat)),
         Event.glirc_print message_code.ERROR_MESSAGE none 0] := by
  rfl

/-- C9. For all byte strings `a` and `b`, `identifier_cmp(a, b)` returns one
integer `r` among -1, 0, 1, the three-way lexicographic comparison of the
folded forms: `r = -1` exactly when the folded `a` is below the folded `b`,
`r = 0` exactly when the folded forms are identical, `r = 1` exactly when the
folded `b` is below the folded `a`; `identifier_cmp(b, a)` returns `-r`. Case
and the four punctuation marks are folded, and the four examples of the
documentation give 0, 0, -1 and 1. -/
theorem identifier_cmp_three_way (reg : Registry) :
    (∀ a b : Bytes, ∃ r : Int,
      (call glirc_lua_identifier_cmp [LuaValue.string a, LuaValue.string b] reg).outcome
        = Except.ok [LuaValue.integer r] ∧
      (r = -1 ∨ r = 0 ∨ r = 1) ∧
      (r = -1 ↔ List.Lex (fun x y : Nat => x < y) (ircFoldCase a) (ircFoldCase b)) ∧
      (r = 0 ↔ ircFoldCase a = ircFoldCase b) ∧
      (r = 1 ↔ List.Lex (fun x y : Nat => x < y) (ircFoldCase b) (ircFoldCase a)) ∧
      (call glirc_lua_identifier_cmp [LuaValue.string b, LuaValue.string a] reg).outcome
        = Except.ok [LuaValue.integer (-r)]) ∧
    ircFoldCase (bytes "az\x7b|\x7d~") = bytes "AZ[\\]^" ∧
    (call glirc_lua_identifier_cmp
        [LuaValue.string (bytes "somenick"), LuaValue.string (bytes "SOMENICK")] reg).outcome
      = Except.ok [LuaValue.integer 0] ∧
    (call glirc_lua_identifier_cmp
        [LuaValue.string (bytes "surprise\x7b|\x7d~"), LuaValue.string (bytes "surprise[\\]^")]
        reg).outcome
      = Except.ok [LuaValue.integer 0] ∧
    (call glirc_lua_identifier_cmp
        [LuaValue.string (bytes "apple"), LuaValue.string (bytes "zebra")] reg).outcome
      = Except.ok [LuaValue.integer (-1)] ∧
    (call glirc_lua_identifier_cmp
        [LuaValue.string (bytes "zebra"), LuaValue.string (bytes "apple")] reg).outcome
      = Except.ok [LuaValue.integer 1] := by
  refine ⟨?_, by decide, ?_, ?_, ?_, ?_⟩
  · intro a b
    refine ⟨compareBytes (ircFoldCase a) (ircFoldCase b), ?_, compareBytes_range _ _,
      compareBytes_eq_neg_one _ _, compareBytes_eq_zero _ _, compareBytes_eq_one _ _, ?_⟩
    · rw [identifier_cmp_run]; rfl
    · rw [identifier_cmp_run, compareBytes_antisymm (ircFoldCase a) (ircFoldCase b), neg_neg]
      rfl
  · rw [identifier_cmp_run]; rfl
  · rw [identifier_cmp_run]; rfl
  · rw [identifier_cmp_run]; rfl
  · rw [identifier_cmp_run]; rfl

/-- C10 (the code departs from it). `inject_chat` called with four strings and
a fifth argument of any kind raises no argument error: the host inject
operation is called with the four strings and their lengths, the fifth
argument being ignored. -/
theorem inject_chat_ignores_fifth_argument (H : Host) (reg : Registry)
    (net src tgt msg : Bytes) (x : LuaValue) :
    (call (glirc_lua_inject_chat H)
        [LuaValue.string net, LuaValue.string src, LuaValue.string tgt, LuaValue.string msg, x]
        reg).log
      = [Event.glirc_inject_chat ⟨net, net.length⟩ ⟨src, src.length⟩ ⟨tgt, tgt.length⟩
          ⟨msg, msg.length⟩] ∧
    (∀ k, (call (glirc_lua_inject_chat H)
        [LuaValue.string net, LuaValue.string src, LuaValue.string tgt, LuaValue.string msg, x]
        reg).outcome ≠ Except.error (LuaError.argerror k)) ∧
    (call (glirc_lua_inject_chat { H with glirc_inject_chat := fun _ _ _ _ => 0 })
        [LuaValue.string net, LuaValue.string src, LuaValue.string tgt, LuaValue.string msg, x]
        reg).outcome = Except.ok [] := by
  refine ⟨?_, ?_, ?_⟩
  · rw [inject_chat_run H net src tgt msg [x] reg]
    split <;> rfl
  · intro k
    rw [inject_chat_run H net src tgt msg [x] reg]
    split <;> simp [Result.outcome]
  · rw [inject_chat_run _ net src tgt msg [x] reg]
    simp [Result.outcome]

end Glirc
